import Mathlib

/-!
Verification of the collections gRPC adapter (`src/tonic/api/collections_api.rs`):
a generic operation-dispatch layer that converts wire-level collection-management
requests into internal meta-operations, submits them to a dispatcher (the
coordinator), and wraps results with an elapsed-time measurement.

The embedding instruments the handlers with a logical clock and an event trace:
each abstract step (unwrapping the envelope, conversion, the coordinator call)
advances the clock by a cost drawn from a `Costs` parameter and records an event,
so that claims about call counts and about which steps fall inside the timed
window become statements about the trace and about the reported `time` field.
-/

/-- Transport-level status codes (from `tonic::Status`); `unknown` stands for a
generic/unclassified failure. -/
inductive StatusCode where
  | invalidArgument
  | notFound
  | alreadyExists
  | internal
  | deadlineExceeded
  | unavailable
  | unknown
  deriving DecidableEq, Repr

/-- Transport-level error (`tonic::Status`): a code plus a message. -/
structure Status where
  code : StatusCode
  message : String
  deriving DecidableEq, Repr

/-- Modelled from the spec: the coordinator error taxonomy of §7 (the concrete
`StorageError` type lives in the storage crate, outside this repository core):
not-found, already-exists, internal-failure, timeout-exceeded, unavailable. -/
inductive CoordinatorError where
  | notFound (msg : String)
  | alreadyExists (msg : String)
  | internalFailure (msg : String)
  | timeoutExceeded (msg : String)
  | unavailable (msg : String)
  deriving DecidableEq, Repr

/-- Modelled from the spec: `storage::content_manager::conversions::error_to_status`
(outside this core) maps each coordinator error deterministically to a transport
status via a fixed table, never to a generic/unclassified status. -/
def error_to_status : CoordinatorError → Status
  | CoordinatorError.notFound msg => { code := StatusCode.notFound, message := msg }
  | CoordinatorError.alreadyExists msg => { code := StatusCode.alreadyExists, message := msg }
  | CoordinatorError.internalFailure msg => { code := StatusCode.internal, message := msg }
  | CoordinatorError.timeoutExceeded msg => { code := StatusCode.deadlineExceeded, message := msg }
  | CoordinatorError.unavailable msg => { code := StatusCode.unavailable, message := msg }

/-- `std::time::Duration`, reduced to whole seconds (the only constructor the
adapter uses is `Duration::from_secs`). -/
structure Duration where
  secs : Nat
  deriving DecidableEq, Repr

/-- `Duration::from_secs`: a duration of exactly `n` whole seconds. -/
def Duration.from_secs (n : Nat) : Duration := { secs := n }

/-- Modelled from the spec: a collection config payload carried by a create
request (the concrete config type lives in the api crate, outside this core). -/
structure CollectionConfig where
  vector_size : Nat
  distance : String
  deriving DecidableEq, Repr

/-- Modelled from the spec: a config delta carried by an update request. -/
structure OptimizersConfigDiff where
  max_segment_size : Nat
  deriving DecidableEq, Repr

/-- Modelled from the spec: one alias-change action of an update-aliases request. -/
inductive AliasChange where
  | createAlias (alias_name : String) (collection_name : String)
  | deleteAlias (alias_name : String)
  | renameAlias (old_alias_name : String) (new_alias_name : String)
  deriving DecidableEq, Repr

/-- Modelled from the spec: the closed internal-operation enum
(`storage::content_manager::collection_meta_ops::CollectionMetaOperations`,
outside this core); each of the four mutating request kinds maps to exactly
one variant. -/
inductive CollectionMetaOperations where
  | createCollection (collection_name : String) (config : CollectionConfig)
  | updateCollection (collection_name : String) (diff : OptimizersConfigDiff)
  | deleteCollection (collection_name : String)
  | changeAliases (actions : List AliasChange)
  deriving DecidableEq, Repr

/-- Wire-level `CreateCollection` request: collection name, config payload
(optional here, standing for the required sub-fields that may be missing in a
malformed request), and the optional timeout in whole seconds. -/
structure CreateCollection where
  collection_name : String
  config : Option CollectionConfig
  timeout : Option Nat
  deriving DecidableEq, Repr

/-- Wire-level `UpdateCollection` request: collection name, config delta, and
the optional timeout in whole seconds. -/
structure UpdateCollection where
  collection_name : String
  optimizers_config : Option OptimizersConfigDiff
  timeout : Option Nat
  deriving DecidableEq, Repr

/-- Wire-level `DeleteCollection` request: collection name and the optional
timeout in whole seconds. -/
structure DeleteCollection where
  collection_name : String
  timeout : Option Nat
  deriving DecidableEq, Repr

/-- Wire-level `ChangeAliases` request: a list of alias-change actions (`none`
stands for a malformed/unset action variant) and the optional timeout in whole
seconds. -/
structure ChangeAliases where
  actions : List (Option AliasChange)
  timeout : Option Nat
  deriving DecidableEq, Repr

/-- Empty wire-level `ListAliasesRequest` message. -/
structure ListAliasesRequest where
  deriving DecidableEq, Repr

/-- Wire-level `ListCollectionAliasesRequest`: the collection name to scope to. -/
structure ListCollectionAliasesRequest where
  collection_name : String
  deriving DecidableEq, Repr

/-- The transport envelope (`tonic::Request<O>`): carries the typed message plus
transport metadata that the handlers never consume. -/
structure Request (O : Type) where
  metadata : List (String × String)
  message : O

/-- `Request::into_inner`: unwrap the envelope to the typed message. -/
def Request.into_inner {O : Type} (r : Request O) : O := r.message

/-- The `WithTimeout` trait of the adapter: extract the optional wait timeout
from a mutating request. -/
class WithTimeout (O : Type) where
  wait_timeout : O → Option Duration

/-- `impl WithTimeout for CreateCollection` (from the `impl_with_timeout!`
macro): `self.timeout.map(Duration::from_secs)`. -/
instance : WithTimeout CreateCollection where
  wait_timeout o := o.timeout.map Duration.from_secs

/-- `impl WithTimeout for UpdateCollection`. -/
instance : WithTimeout UpdateCollection where
  wait_timeout o := o.timeout.map Duration.from_secs

/-- `impl WithTimeout for DeleteCollection`. -/
instance : WithTimeout DeleteCollection where
  wait_timeout o := o.timeout.map Duration.from_secs

/-- `impl WithTimeout for ChangeAliases`. -/
instance : WithTimeout ChangeAliases where
  wait_timeout o := o.timeout.map Duration.from_secs

/-- The `TryInto<CollectionMetaOperations, Error = Status>` bound of
`perform_operation`: a fallible, pure conversion from a wire request into an
internal operation. -/
class TryIntoMetaOps (O : Type) where
  try_into : O → Except Status CollectionMetaOperations

/-- Modelled from the spec: conversion of a create request (the concrete
`TryFrom` impl lives in the storage crate, outside this core); fails with an
invalid-argument status when required config sub-fields are missing. -/
instance : TryIntoMetaOps CreateCollection where
  try_into o :=
    match o.config with
    | none => Except.error { code := StatusCode.invalidArgument, message := "missing collection config" }
    | some cfg => Except.ok (CollectionMetaOperations.createCollection o.collection_name cfg)

/-- Modelled from the spec: conversion of an update request; fails with an
invalid-argument status when the required config delta is missing. -/
instance : TryIntoMetaOps UpdateCollection where
  try_into o :=
    match o.optimizers_config with
    | none => Except.error { code := StatusCode.invalidArgument, message := "missing optimizers config" }
    | some diff => Except.ok (CollectionMetaOperations.updateCollection o.collection_name diff)

/-- Modelled from the spec: conversion of a delete request; total over the
request shape. -/
instance : TryIntoMetaOps DeleteCollection where
  try_into o := Except.ok (CollectionMetaOperations.deleteCollection o.collection_name)

/-- Modelled from the spec: collect the alias-change actions of an
update-aliases request, failing on the first malformed/unset action variant. -/
def collectAliasChanges : List (Option AliasChange) → Except Status (List AliasChange)
  | [] => Except.ok []
  | none :: _ =>
      Except.error { code := StatusCode.invalidArgument, message := "malformed alias action" }
  | some a :: rest => (collectAliasChanges rest).map (fun as => a :: as)

/-- Modelled from the spec: conversion of an update-aliases request; fails with
an invalid-argument status on an inconsistent alias operation set. -/
instance : TryIntoMetaOps ChangeAliases where
  try_into o := (collectAliasChanges o.actions).map CollectionMetaOperations.changeAliases

/-- The alias record returned by the coordinator's `list_aliases` (the storage
crate's alias description: alias name plus the collection it targets). -/
structure StorageAliasDescription where
  alias_name : String
  collection_name : String
  deriving DecidableEq, Repr

/-- Wire-level `AliasDescription`: pairs an alias name with a collection name. -/
structure AliasDescription where
  alias_name : String
  collection_name : String
  deriving DecidableEq, Repr

/-- The `Into<AliasDescription>` conversion applied element-wise by
`list_aliases` (field-for-field). -/
def storage_alias_into (a : StorageAliasDescription) : AliasDescription :=
  { alias_name := a.alias_name, collection_name := a.collection_name }

/-- The coordinator as seen by this adapter (`storage::dispatcher::Dispatcher`
plus its table-of-content accessor, outside this core): the result returned by
each call the adapter makes. `toc_list_aliases` and `toc_collection_aliases`
stand for `dispatcher.toc().list_aliases()` and
`dispatcher.toc().collection_aliases(name)`. -/
structure Dispatcher where
  submit_collection_meta_op :
    CollectionMetaOperations → Option Duration → Except CoordinatorError Bool
  toc_list_aliases : Except CoordinatorError (List StorageAliasDescription)
  toc_collection_aliases : String → Except CoordinatorError (List String)

/-- The adapter service: its only field is the shared reference to the
dispatcher (`Arc<Dispatcher>`). -/
structure CollectionsService where
  dispatcher : Dispatcher

/-- `CollectionsService::new`. -/
def CollectionsService.new (dispatcher : Dispatcher) : CollectionsService :=
  { dispatcher := dispatcher }

/-- Wire-level `CollectionOperationResponse`: success flag plus elapsed time
(in logical clock units, standing for seconds). -/
structure CollectionOperationResponse where
  result : Bool
  time : Nat
  deriving DecidableEq, Repr

/-- Wire-level `ListAliasesResponse`: the alias descriptions plus elapsed time. -/
structure ListAliasesResponse where
  aliases : List AliasDescription
  time : Nat
  deriving DecidableEq, Repr

/-- Modelled from the spec: `CollectionOperationResponse::from((timing, result))`
(in the api crate, outside this core) wraps the result with the elapsed time
`now - timing` measured at response construction. -/
def collection_op_response_from (timing now : Nat) (result : Bool) :
    CollectionOperationResponse :=
  { result := result, time := now - timing }

/-- Abstract steps of a handler, recorded in the execution trace. -/
inductive Event where
  | unwrapped
  | timingStart
  | converted
  | submitted (op : CollectionMetaOperations) (timeout : Option Duration)
  | listAliasesCalled
  | collectionAliasesCalled (collection_name : String)
  deriving DecidableEq, Repr

/-- Instrumentation state: a logical clock plus the trace of recorded events. -/
structure ExecState where
  clock : Nat
  events : List Event
  deriving DecidableEq, Repr

/-- Advance the clock by `d` units and record event `e`. -/
def tick (d : Nat) (e : Event) (s : ExecState) : ExecState :=
  { clock := s.clock + d, events := s.events ++ [e] }

/-- Record an event without advancing the clock. -/
def mark (e : Event) (s : ExecState) : ExecState := tick 0 e s

/-- Logical durations of the abstract steps: unwrapping the envelope, the
request conversion, and the coordinator call. All other work takes no logical
time. -/
structure Costs where
  unwrap_cost : Nat
  convert_cost : Nat
  submit_cost : Nat
  deriving DecidableEq, Repr

/-- `CollectionsService::perform_operation`: the generic mutating pipeline.
Mirrors the source line by line: unwrap the envelope, extract the wait timeout,
record the timing instant, evaluate `operation.try_into()?` (aborting on
failure), submit `(operation, wait_timeout)` to the dispatcher, map a
coordinator error through `error_to_status`, and on success build the response
from `(timing, result)`. -/
def perform_operation {O : Type} [WithTimeout O] [TryIntoMetaOps O]
    (svc : CollectionsService) (c : Costs) (request : Request O) (s : ExecState) :
    Except Status CollectionOperationResponse × ExecState :=
  let operation := request.into_inner
  let s1 := tick c.unwrap_cost Event.unwrapped s
  let wait_timeout := WithTimeout.wait_timeout operation
  let timing := s1.clock
  let s2 := mark Event.timingStart s1
  match TryIntoMetaOps.try_into operation with
  | Except.error e => (Except.error e, tick c.convert_cost Event.converted s2)
  | Except.ok op =>
      let s3 := tick c.convert_cost Event.converted s2
      let s4 := tick c.submit_cost (Event.submitted op wait_timeout) s3
      match svc.dispatcher.submit_collection_meta_op op wait_timeout with
      | Except.error err => (Except.error (error_to_status err), s4)
      | Except.ok result =>
          (Except.ok (collection_op_response_from timing s4.clock result), s4)

/-- `CollectionsService::list_aliases`: the inbound request is bound as
`_request` and never consumed; the timing instant is recorded, the coordinator
is called, its alias records are converted element-wise via `Into`, a
coordinator error is mapped through `error_to_status`, and the response pairs
the aliases with the elapsed time. -/
def CollectionsService.list_aliases (svc : CollectionsService) (c : Costs)
    (_request : Request ListAliasesRequest) (s : ExecState) :
    Except Status ListAliasesResponse × ExecState :=
  let timing := s.clock
  let s1 := mark Event.timingStart s
  let s2 := tick c.submit_cost Event.listAliasesCalled s1
  match svc.dispatcher.toc_list_aliases with
  | Except.error e => (Except.error (error_to_status e), s2)
  | Except.ok aliases =>
      (Except.ok { aliases := aliases.map storage_alias_into, time := s2.clock - timing }, s2)

/-- `CollectionsService::list_collection_aliases`: the timing instant is
recorded before the envelope is unwrapped; the caller-supplied collection name
is destructured from the request, the coordinator's `collection_aliases` is
called with it, and each returned alias name is paired with a clone of that
caller-supplied name; a coordinator error is mapped through `error_to_status`. -/
def CollectionsService.list_collection_aliases (svc : CollectionsService) (c : Costs)
    (request : Request ListCollectionAliasesRequest) (s : ExecState) :
    Except Status ListAliasesResponse × ExecState :=
  let timing := s.clock
  let s1 := mark Event.timingStart s
  let collection_name := request.into_inner.collection_name
  let s2 := tick c.unwrap_cost Event.unwrapped s1
  let s3 := tick c.submit_cost (Event.collectionAliasesCalled collection_name) s2
  match svc.dispatcher.toc_collection_aliases collection_name with
  | Except.error e => (Except.error (error_to_status e), s3)
  | Except.ok aliases =>
      (Except.ok
        { aliases :=
            aliases.map (fun a =>
              { alias_name := a, collection_name := collection_name }),
          time := s3.clock - timing }, s3)

/-- `Collections::create` for the service: delegates to `perform_operation`. -/
def CollectionsService.create (svc : CollectionsService) (c : Costs)
    (request : Request CreateCollection) (s : ExecState) :
    Except Status CollectionOperationResponse × ExecState :=
  perform_operation svc c request s

/-- `Collections::update` for the service: delegates to `perform_operation`. -/
def CollectionsService.update (svc : CollectionsService) (c : Costs)
    (request : Request UpdateCollection) (s : ExecState) :
    Except Status CollectionOperationResponse × ExecState :=
  perform_operation svc c request s

/-- `Collections::delete` for the service: delegates to `perform_operation`. -/
def CollectionsService.delete (svc : CollectionsService) (c : Costs)
    (request : Request DeleteCollection) (s : ExecState) :
    Except Status CollectionOperationResponse × ExecState :=
  perform_operation svc c request s

/-- `Collections::update_aliases` for the service: delegates to
`perform_operation`. -/
def CollectionsService.update_aliases (svc : CollectionsService) (c : Costs)
    (request : Request ChangeAliases) (s : ExecState) :
    Except Status CollectionOperationResponse × ExecState :=
  perform_operation svc c request s

/-- Number of coordinator submissions recorded in a trace. -/
def submitCount : List Event → Nat
  | [] => 0
  | Event.submitted _ _ :: rest => submitCount rest + 1
  | _ :: rest => submitCount rest

/-- Number of conversion attempts recorded in a trace. -/
def convertCount : List Event → Nat
  | [] => 0
  | Event.converted :: rest => convertCount rest + 1
  | _ :: rest => convertCount rest

/-- Decidable equality for `Except`, so concrete handler results can be checked
by evaluation. -/
instance {ε α : Type} [DecidableEq ε] [DecidableEq α] : DecidableEq (Except ε α) :=
  fun a b =>
    match a, b with
    | Except.ok x, Except.ok y =>
        if h : x = y then isTrue (by rw [h]) else isFalse (by simp [h])
    | Except.error x, Except.error y =>
        if h : x = y then isTrue (by rw [h]) else isFalse (by simp [h])
    | Except.ok _, Except.error _ => isFalse (by simp)
    | Except.error _, Except.ok _ => isFalse (by simp)

/-- A stub dispatcher whose calls all succeed, used for concrete evaluations. -/
def okDispatcher : Dispatcher where
  submit_collection_meta_op := fun _ _ => Except.ok true
  toc_list_aliases :=
    Except.ok [{ alias_name := "a", collection_name := "c1" },
               { alias_name := "b", collection_name := "c2" }]
  toc_collection_aliases := fun _ => Except.ok ["a", "b"]

/-- A stub dispatcher whose calls all fail, used for concrete evaluations. -/
def errDispatcher : Dispatcher where
  submit_collection_meta_op := fun _ _ => Except.error (CoordinatorError.notFound "nf")
  toc_list_aliases := Except.error (CoordinatorError.unavailable "ua")
  toc_collection_aliases := fun _ => Except.error (CoordinatorError.timeoutExceeded "te")

/-- Service over the all-ok stub dispatcher. -/
def okSvc : CollectionsService := CollectionsService.new okDispatcher

/-- Service over the all-failing stub dispatcher. -/
def errSvc : CollectionsService := CollectionsService.new errDispatcher

/-- Concrete step costs: unwrapping takes 2 units, conversion 5, the
coordinator call 3. -/
def testCosts : Costs := { unwrap_cost := 2, convert_cost := 5, submit_cost := 3 }

/-- A well-formed create request (conversion succeeds). -/
def createReqOk : Request CreateCollection :=
  { metadata := [],
    message := { collection_name := "c",
                 config := some { vector_size := 4, distance := "Dot" },
                 timeout := some 7 } }

/-- A malformed create request (missing config, conversion fails). -/
def createReqBad : Request CreateCollection :=
  { metadata := [],
    message := { collection_name := "c", config := none, timeout := none } }

/-- C1: for every mutating request type of the generic pipeline, if the
request-to-internal-operation conversion fails, the pipeline returns the
conversion's classified error and the dispatcher's submit is never invoked
(no submission event is recorded in the trace). -/
theorem conversion_failure_aborts_without_submit
    {O : Type} [WithTimeout O] [TryIntoMetaOps O]
    (svc : CollectionsService) (c : Costs) (r : Request O) (clk : Nat) (e : Status)
    (h : TryIntoMetaOps.try_into r.into_inner = Except.error e) :
    (perform_operation svc c r { clock := clk, events := [] }).fst = Except.error e ∧
      submitCount (perform_operation svc c r { clock := clk, events := [] }).snd.events = 0 := by
  simp [perform_operation, h, tick, mark, submitCount]

/-- Witness for C1: a create request with a missing config fails conversion,
the pipeline returns that invalid-argument error, and no submission happens. -/
theorem conversion_failure_aborts_without_submit_witness :
    TryIntoMetaOps.try_into createReqBad.into_inner =
        Except.error { code := StatusCode.invalidArgument,
                       message := "missing collection config" } ∧
      ((perform_operation okSvc testCosts createReqBad { clock := 0, events := [] }).fst =
          Except.error { code := StatusCode.invalidArgument,
                         message := "missing collection config" } ∧
        submitCount
          (perform_operation okSvc testCosts createReqBad
            { clock := 0, events := [] }).snd.events = 0) :=
  ⟨by decide,
   conversion_failure_aborts_without_submit okSvc testCosts createReqBad 0
     { code := StatusCode.invalidArgument, message := "missing collection config" }
     (by decide)⟩

/-- C2: each of the four mutating request types extracts its wait timeout
uniformly through the shared `WithTimeout` capability — a present
timeout-seconds value `n` becomes a duration of exactly `n` whole seconds and
an absent one becomes no duration — and the generic pipeline passes exactly
that extracted value to the dispatcher's submit (as recorded by the submission
event of the trace). -/
theorem submit_receives_extracted_timeout :
    (∀ (o : CreateCollection) (n : Nat),
        (o.timeout = some n → WithTimeout.wait_timeout o = some { secs := n }) ∧
        (o.timeout = none → WithTimeout.wait_timeout o = none)) ∧
    (∀ (o : UpdateCollection) (n : Nat),
        (o.timeout = some n → WithTimeout.wait_timeout o = some { secs := n }) ∧
        (o.timeout = none → WithTimeout.wait_timeout o = none)) ∧
    (∀ (o : DeleteCollection) (n : Nat),
        (o.timeout = some n → WithTimeout.wait_timeout o = some { secs := n }) ∧
        (o.timeout = none → WithTimeout.wait_timeout o = none)) ∧
    (∀ (o : ChangeAliases) (n : Nat),
        (o.timeout = some n → WithTimeout.wait_timeout o = some { secs := n }) ∧
        (o.timeout = none → WithTimeout.wait_timeout o = none)) ∧
    (∀ (O : Type) [WithTimeout O] [TryIntoMetaOps O]
        (svc : CollectionsService) (c : Costs) (r : Request O) (clk : Nat)
        (op : CollectionMetaOperations),
        TryIntoMetaOps.try_into r.into_inner = Except.ok op →
        (perform_operation svc c r { clock := clk, events := [] }).snd.events =
          [Event.unwrapped, Event.timingStart, Event.converted,
           Event.submitted op (WithTimeout.wait_timeout r.into_inner)]) := by
  refine ⟨?_, ?_, ?_, ?_, ?_⟩
  · intro o n
    exact ⟨fun h => by simp [WithTimeout.wait_timeout, h, Duration.from_secs],
           fun h => by simp [WithTimeout.wait_timeout, h]⟩
  · intro o n
    exact ⟨fun h => by simp [WithTimeout.wait_timeout, h, Duration.from_secs],
           fun h => by simp [WithTimeout.wait_timeout, h]⟩
  · intro o n
    exact ⟨fun h => by simp [WithTimeout.wait_timeout, h, Duration.from_secs],
           fun h => by simp [WithTimeout.wait_timeout, h]⟩
  · intro o n
    exact ⟨fun h => by simp [WithTimeout.wait_timeout, h, Duration.from_secs],
           fun h => by simp [WithTimeout.wait_timeout, h]⟩
  · intro O _ _ svc c r clk op h
    cases hs : svc.dispatcher.submit_collection_meta_op op
        (WithTimeout.wait_timeout r.into_inner) with
    | error err => simp [perform_operation, h, hs, tick, mark]
    | ok result => simp [perform_operation, h, hs, tick, mark]

/-- Witness for C2: a create request with timeout-seconds 7 extracts a 7-second
duration, and the pipeline's submission event carries exactly that duration. -/
theorem submit_receives_extracted_timeout_witness :
    createReqOk.into_inner.timeout = some 7 ∧
    WithTimeout.wait_timeout createReqOk.into_inner = some { secs := 7 } ∧
    TryIntoMetaOps.try_into createReqOk.into_inner =
      Except.ok (CollectionMetaOperations.createCollection "c"
        { vector_size := 4, distance := "Dot" }) ∧
    (perform_operation okSvc testCosts createReqOk { clock := 0, events := [] }).snd.events =
      [Event.unwrapped, Event.timingStart, Event.converted,
       Event.submitted
         (CollectionMetaOperations.createCollection "c" { vector_size := 4, distance := "Dot" })
         (some { secs := 7 })] :=
  ⟨by decide,
   (submit_receives_extracted_timeout.1 createReqOk.into_inner 7).1 (by decide),
   by decide,
   submit_receives_extracted_timeout.2.2.2.2 CreateCollection okSvc testCosts createReqOk 0
     (CollectionMetaOperations.createCollection "c" { vector_size := 4, distance := "Dot" })
     (by decide)⟩

/-- C6: the four mutating handlers (create, update, delete, update_aliases) are
each equal to the shared generic dispatch `perform_operation` applied to their
request type, and every run of the pipeline records exactly one conversion
attempt and at most one submission — exactly one submission whenever the
conversion succeeds. -/
theorem mutating_handlers_share_pipeline :
    (∀ (svc : CollectionsService) (c : Costs) (r : Request CreateCollection) (s : ExecState),
        CollectionsService.create svc c r s = perform_operation svc c r s) ∧
    (∀ (svc : CollectionsService) (c : Costs) (r : Request UpdateCollection) (s : ExecState),
        CollectionsService.update svc c r s = perform_operation svc c r s) ∧
    (∀ (svc : CollectionsService) (c : Costs) (r : Request DeleteCollection) (s : ExecState),
        CollectionsService.delete svc c r s = perform_operation svc c r s) ∧
    (∀ (svc : CollectionsService) (c : Costs) (r : Request ChangeAliases) (s : ExecState),
        CollectionsService.update_aliases svc c r s = perform_operation svc c r s) ∧
    (∀ (O : Type) [WithTimeout O] [TryIntoMetaOps O]
        (svc : CollectionsService) (c : Costs) (r : Request O) (clk : Nat),
        convertCount (perform_operation svc c r { clock := clk, events := [] }).snd.events = 1 ∧
        submitCount (perform_operation svc c r { clock := clk, events := [] }).snd.events ≤ 1 ∧
        (∀ op, TryIntoMetaOps.try_into r.into_inner = Except.ok op →
          submitCount (perform_operation svc c r { clock := clk, events := [] }).snd.events = 1)) := by
  refine ⟨fun _ _ _ _ => rfl, fun _ _ _ _ => rfl, fun _ _ _ _ => rfl, fun _ _ _ _ => rfl, ?_⟩
  intro O _ _ svc c r clk
  cases h : TryIntoMetaOps.try_into r.into_inner with
  | error e =>
      simp [perform_operation, h, tick, mark, convertCount, submitCount]
  | ok op =>
      cases hs : svc.dispatcher.submit_collection_meta_op op
          (WithTimeout.wait_timeout r.into_inner) with
      | error err =>
          simp [perform_operation, h, hs, tick, mark, convertCount, submitCount]
      | ok result =>
          simp [perform_operation, h, hs, tick, mark, convertCount, submitCount]

/-- Witness for C6: on a well-formed create request the pipeline records exactly
one conversion and exactly one submission. -/
theorem mutating_handlers_share_pipeline_witness :
    TryIntoMetaOps.try_into createReqOk.into_inner =
        Except.ok (CollectionMetaOperations.createCollection "c"
          { vector_size := 4, distance := "Dot" }) ∧
    convertCount
        (perform_operation okSvc testCosts createReqOk { clock := 0, events := [] }).snd.events = 1 ∧
    submitCount
        (perform_operation okSvc testCosts createReqOk { clock := 0, events := [] }).snd.events = 1 :=
  ⟨by decide,
   (mutating_handlers_share_pipeline.2.2.2.2 CreateCollection okSvc testCosts createReqOk 0).1,
   (mutating_handlers_share_pipeline.2.2.2.2 CreateCollection okSvc testCosts createReqOk 0).2.2
     (CollectionMetaOperations.createCollection "c" { vector_size := 4, distance := "Dot" })
     (by decide)⟩

/-- C8: a failed conversion's error is returned to the caller exactly as the
converter produced it, for every possible status value (including statuses the
coordinator-error classification can never produce), while the classification
function `error_to_status` is applied precisely on the path where the
dispatcher's submit returns an error. -/
theorem conversion_error_returned_verbatim
    {O : Type} [WithTimeout O] [TryIntoMetaOps O]
    (svc : CollectionsService) (c : Costs) (r : Request O) (clk : Nat) :
    (∀ e : Status, TryIntoMetaOps.try_into r.into_inner = Except.error e →
        (perform_operation svc c r { clock := clk, events := [] }).fst = Except.error e) ∧
    (∀ (op : CollectionMetaOperations) (ce : CoordinatorError),
        TryIntoMetaOps.try_into r.into_inner = Except.ok op →
        svc.dispatcher.submit_collection_meta_op op (WithTimeout.wait_timeout r.into_inner) =
          Except.error ce →
        (perform_operation svc c r { clock := clk, events := [] }).fst =
          Except.error (error_to_status ce)) := by
  constructor
  · intro e h
    simp [perform_operation, h, tick, mark]
  · intro op ce h hs
    simp [perform_operation, h, hs, tick, mark]

/-- Witness for C8: the invalid-argument error of a malformed create request
passes through unchanged, and a not-found submit error is classified. -/
theorem conversion_error_returned_verbatim_witness :
    (TryIntoMetaOps.try_into createReqBad.into_inner =
        Except.error { code := StatusCode.invalidArgument,
                       message := "missing collection config" } ∧
      (perform_operation errSvc testCosts createReqBad { clock := 0, events := [] }).fst =
        Except.error { code := StatusCode.invalidArgument,
                       message := "missing collection config" }) ∧
    (perform_operation errSvc testCosts createReqOk { clock := 0, events := [] }).fst =
      Except.error (error_to_status (CoordinatorError.notFound "nf")) :=
  ⟨⟨by decide,
    (conversion_error_returned_verbatim errSvc testCosts createReqBad 0).1
      { code := StatusCode.invalidArgument, message := "missing collection config" }
      (by decide)⟩,
   (conversion_error_returned_verbatim errSvc testCosts createReqOk 0).2
     (CollectionMetaOperations.createCollection "c" { vector_size := 4, distance := "Dot" })
     (CoordinatorError.notFound "nf") (by decide) (by decide)⟩

/-- C5: every error the coordinator returns — from the mutating submit, from
`list_aliases`, or from `collection_aliases` — is surfaced as
`error_to_status` applied to that error (one fixed deterministic function),
and `error_to_status` never yields the generic/unclassified status code. -/
theorem coordinator_errors_always_classified :
    (∀ (O : Type) [WithTimeout O] [TryIntoMetaOps O]
        (svc : CollectionsService) (c : Costs) (r : Request O) (clk : Nat)
        (op : CollectionMetaOperations) (ce : CoordinatorError),
        TryIntoMetaOps.try_into r.into_inner = Except.ok op →
        svc.dispatcher.submit_collection_meta_op op (WithTimeout.wait_timeout r.into_inner) =
          Except.error ce →
        (perform_operation svc c r { clock := clk, events := [] }).fst =
          Except.error (error_to_status ce)) ∧
    (∀ (svc : CollectionsService) (c : Costs) (r : Request ListAliasesRequest)
        (s : ExecState) (ce : CoordinatorError),
        svc.dispatcher.toc_list_aliases = Except.error ce →
        (svc.list_aliases c r s).fst = Except.error (error_to_status ce)) ∧
    (∀ (svc : CollectionsService) (c : Costs) (r : Request ListCollectionAliasesRequest)
        (s : ExecState) (ce : CoordinatorError),
        svc.dispatcher.toc_collection_aliases r.into_inner.collection_name = Except.error ce →
        (svc.list_collection_aliases c r s).fst = Except.error (error_to_status ce)) ∧
    (∀ ce : CoordinatorError, (error_to_status ce).code ≠ StatusCode.unknown) := by
  refine ⟨?_, ?_, ?_, ?_⟩
  · intro O _ _ svc c r clk op ce h hs
    simp [perform_operation, h, hs, tick, mark]
  · intro svc c r s ce h
    simp [CollectionsService.list_aliases, h, tick, mark]
  · intro svc c r s ce h
    simp [CollectionsService.list_collection_aliases, h, tick, mark]
  · intro ce
    cases ce <;> simp [error_to_status]

/-- Witness for C5: concrete coordinator failures on all three paths surface
through `error_to_status`, and a sample classification is not `unknown`. -/
theorem coordinator_errors_always_classified_witness :
    (perform_operation errSvc testCosts createReqOk { clock := 0, events := [] }).fst =
        Except.error (error_to_status (CoordinatorError.notFound "nf")) ∧
    (errSvc.list_aliases testCosts { metadata := [], message := {} }
        { clock := 0, events := [] }).fst =
      Except.error (error_to_status (CoordinatorError.unavailable "ua")) ∧
    (errSvc.list_collection_aliases testCosts
        { metadata := [], message := { collection_name := "foo" } }
        { clock := 0, events := [] }).fst =
      Except.error (error_to_status (CoordinatorError.timeoutExceeded "te")) ∧
    (error_to_status (CoordinatorError.notFound "nf")).code ≠ StatusCode.unknown :=
  ⟨coordinator_errors_always_classified.1 CreateCollection errSvc testCosts createReqOk 0
     (CollectionMetaOperations.createCollection "c" { vector_size := 4, distance := "Dot" })
     (CoordinatorError.notFound "nf") (by decide) (by decide),
   coordinator_errors_always_classified.2.1 errSvc testCosts
     { metadata := [], message := {} } { clock := 0, events := [] }
     (CoordinatorError.unavailable "ua") (by decide),
   coordinator_errors_always_classified.2.2.1 errSvc testCosts
     { metadata := [], message := { collection_name := "foo" } } { clock := 0, events := [] }
     (CoordinatorError.timeoutExceeded "te") (by decide),
   coordinator_errors_always_classified.2.2.2 (CoordinatorError.notFound "nf")⟩

/-- C3: for every caller-supplied collection name and every alias list the
coordinator returns for it, `list_collection_aliases` yields one
`AliasDescription` per returned alias, in the same order, each pairing that
alias with the caller-supplied name verbatim. -/
theorem list_collection_aliases_pairs_caller_name
    (svc : CollectionsService) (c : Costs) (meta : List (String × String))
    (name : String) (s : ExecState) (l : List String)
    (h : svc.dispatcher.toc_collection_aliases name = Except.ok l) :
    (svc.list_collection_aliases c { metadata := meta, message := { collection_name := name } }
        s).fst.map (fun resp => resp.aliases) =
      Except.ok (l.map (fun a =>
        ({ alias_name := a, collection_name := name } : AliasDescription))) := by
  simp [CollectionsService.list_collection_aliases, Request.into_inner, h, tick, mark,
    Except.map]

/-- Witness for C3: with the coordinator returning `["a", "b"]` for `"foo"`,
the response is exactly `[{alias: "a", collection: "foo"}, {alias: "b",
collection: "foo"}]`, in order. -/
theorem list_collection_aliases_pairs_caller_name_witness :
    okSvc.dispatcher.toc_collection_aliases "foo" = Except.ok ["a", "b"] ∧
    (okSvc.list_collection_aliases testCosts
        { metadata := [], message := { collection_name := "foo" } }
        { clock := 0, events := [] }).fst.map (fun resp => resp.aliases) =
      Except.ok [{ alias_name := "a", collection_name := "foo" },
                 { alias_name := "b", collection_name := "foo" }] :=
  ⟨by decide,
   list_collection_aliases_pairs_caller_name okSvc testCosts [] "foo"
     { clock := 0, events := [] } ["a", "b"] (by decide)⟩

/-- C10: for every alias-record list the coordinator returns to `list_aliases`,
the response contains exactly the element-wise `Into` conversion of that list —
a one-to-one map preserving count and order. -/
theorem list_aliases_maps_elementwise
    (svc : CollectionsService) (c : Costs) (r : Request ListAliasesRequest)
    (s : ExecState) (l : List StorageAliasDescription)
    (h : svc.dispatcher.toc_list_aliases = Except.ok l) :
    (svc.list_aliases c r s).fst.map (fun resp => resp.aliases) =
        Except.ok (l.map storage_alias_into) ∧
      ∀ resp, (svc.list_aliases c r s).fst = Except.ok resp →
        resp.aliases.length = l.length := by
  constructor
  · simp [CollectionsService.list_aliases, h, tick, mark, Except.map]
  · intro resp hr
    simp [CollectionsService.list_aliases, h, tick, mark] at hr
    simp [← hr]

/-- Witness for C10: the stub coordinator's two alias records shape into exactly
two converted descriptions, count preserved. -/
theorem list_aliases_maps_elementwise_witness :
    okSvc.dispatcher.toc_list_aliases =
        Except.ok [{ alias_name := "a", collection_name := "c1" },
                   { alias_name := "b", collection_name := "c2" }] ∧
    (okSvc.list_aliases testCosts { metadata := [], message := {} }
        { clock := 0, events := [] }).fst.map (fun resp => resp.aliases) =
      Except.ok [{ alias_name := "a", collection_name := "c1" },
                 { alias_name := "b", collection_name := "c2" }] :=
  ⟨by decide,
   (list_aliases_maps_elementwise okSvc testCosts { metadata := [], message := {} }
      { clock := 0, events := [] }
      [{ alias_name := "a", collection_name := "c1" },
       { alias_name := "b", collection_name := "c2" }] (by decide)).1⟩

/-- C9: `list_aliases` never inspects its inbound request: any two requests
(differing in metadata or message) produce identical results under the same
coordinator, costs, and initial state. -/
theorem list_aliases_independent_of_request
    (svc : CollectionsService) (c : Costs) (r1 r2 : Request ListAliasesRequest)
    (s : ExecState) :
    svc.list_aliases c r1 s = svc.list_aliases c r2 s := rfl

/-- C7: the adapter's only field is its dispatcher reference — the dispatcher
determines the service value — and every handler's behavior is a pure function
of that dispatcher and the call's own inputs, so no call can observe or affect
state left behind by another call at this layer. -/
theorem adapter_holds_no_mutable_state :
    (∀ s : CollectionsService, s = { dispatcher := s.dispatcher }) ∧
    (∀ s1 s2 : CollectionsService, s1.dispatcher = s2.dispatcher →
      s1 = s2 ∧
      CollectionsService.create s1 = CollectionsService.create s2 ∧
      CollectionsService.update s1 = CollectionsService.update s2 ∧
      CollectionsService.delete s1 = CollectionsService.delete s2 ∧
      CollectionsService.update_aliases s1 = CollectionsService.update_aliases s2 ∧
      CollectionsService.list_aliases s1 = CollectionsService.list_aliases s2 ∧
      CollectionsService.list_collection_aliases s1 = CollectionsService.list_collection_aliases s2) := by
  constructor
  · intro s
    cases s
    rfl
  · intro s1 s2 h
    cases s1
    cases s2
    cases h
    exact ⟨rfl, rfl, rfl, rfl, rfl, rfl, rfl⟩

/-- Witness for C7: two services built over the same dispatcher are one and the
same value, with identical handler behavior. -/
theorem adapter_holds_no_mutable_state_witness :
    okSvc = { dispatcher := okSvc.dispatcher } ∧
    okSvc = CollectionsService.new okDispatcher ∧
    CollectionsService.create okSvc = CollectionsService.create (CollectionsService.new okDispatcher) :=
  ⟨adapter_holds_no_mutable_state.1 okSvc,
   (adapter_holds_no_mutable_state.2 okSvc (CollectionsService.new okDispatcher) rfl).1,
   (adapter_holds_no_mutable_state.2 okSvc (CollectionsService.new okDispatcher) rfl).2.1⟩

/-- C4 counterexample: with unwrapping costing 2, conversion costing 5, and the
coordinator call costing 3, a successful create reports an elapsed time of 8 —
conversion lies inside the timed window — and `list_collection_aliases` reports
5 — its measurement begins before the envelope is unwrapped. Neither equals the
coordinator-call duration 3 that the claim requires. -/
theorem elapsed_time_not_coordinator_only :
    testCosts.submit_cost = 3 ∧
    (perform_operation okSvc testCosts createReqOk { clock := 0, events := [] }).fst =
        Except.ok { result := true, time := 8 } ∧
    ¬ (8 : Nat) = 3 ∧
    (okSvc.list_collection_aliases testCosts
        { metadata := [], message := { collection_name := "foo" } }
        { clock := 0, events := [] }).fst.map (fun resp => resp.time) = Except.ok 5 ∧
    ¬ (5 : Nat) = 3 := by decide

/-- C4 (amended): the elapsed-time measurement ends just after coordinator
completion, but starts before the conversion rather than after it: in the
mutating pipeline it starts just after request unwrapping, so the reported time
is the conversion cost plus the coordinator-call cost; in
`list_collection_aliases` it starts before unwrapping, so the reported time is
the unwrapping cost plus the coordinator-call cost; only `list_aliases` times
the coordinator call alone. -/
theorem elapsed_time_window_placement :
    (∀ (O : Type) [WithTimeout O] [TryIntoMetaOps O]
        (svc : CollectionsService) (c : Costs) (r : Request O) (clk : Nat)
        (op : CollectionMetaOperations) (b : Bool),
        TryIntoMetaOps.try_into r.into_inner = Except.ok op →
        svc.dispatcher.submit_collection_meta_op op (WithTimeout.wait_timeout r.into_inner) =
          Except.ok b →
        (perform_operation svc c r { clock := clk, events := [] }).fst =
          Except.ok { result := b, time := c.convert_cost + c.submit_cost }) ∧
    (∀ (svc : CollectionsService) (c : Costs) (meta : List (String × String))
        (name : String) (clk : Nat) (l : List String),
        svc.dispatcher.toc_collection_aliases name = Except.ok l →
        (svc.list_collection_aliases c { metadata := meta, message := { collection_name := name } }
            { clock := clk, events := [] }).fst =
          Except.ok { aliases := l.map (fun a =>
                        ({ alias_name := a, collection_name := name } : AliasDescription)),
                      time := c.unwrap_cost + c.submit_cost }) ∧
    (∀ (svc : CollectionsService) (c : Costs) (r : Request ListAliasesRequest)
        (clk : Nat) (l : List StorageAliasDescription),
        svc.dispatcher.toc_list_aliases = Except.ok l →
        (svc.list_aliases c r { clock := clk, events := [] }).fst =
          Except.ok { aliases := l.map storage_alias_into, time := c.submit_cost }) := by
  refine ⟨?_, ?_, ?_⟩
  · intro O _ _ svc c r clk op b h hs
    simp [perform_operation, h, hs, tick, mark, collection_op_response_from]
    omega
  · intro svc c meta name clk l h
    simp [CollectionsService.list_collection_aliases, Request.into_inner, h, tick, mark]
    omega
  · intro svc c r clk l h
    simp [CollectionsService.list_aliases, h, tick, mark]

/-- Witness for the amended C4: with costs (2, 5, 3) the mutating pipeline
reports 8 and `list_collection_aliases` reports 5. -/
theorem elapsed_time_window_placement_witness :
    (perform_operation okSvc testCosts createReqOk { clock := 0, events := [] }).fst =
        Except.ok { result := true, time := testCosts.convert_cost + testCosts.submit_cost } ∧
    (okSvc.list_collection_aliases testCosts
        { metadata := [], message := { collection_name := "foo" } }
        { clock := 0, events := [] }).fst =
      Except.ok { aliases := [{ alias_name := "a", collection_name := "foo" },
                              { alias_name := "b", collection_name := "foo" }],
                  time := testCosts.unwrap_cost + testCosts.submit_cost } ∧
    (okSvc.list_aliases testCosts { metadata := [], message := {} }
        { clock := 0, events := [] }).fst =
      Except.ok { aliases := [{ alias_name := "a", collection_name := "c1" },
                              { alias_name := "b", collection_name := "c2" }],
                  time := testCosts.submit_cost } :=
  ⟨elapsed_time_window_placement.1 CreateCollection okSvc testCosts createReqOk 0
     (CollectionMetaOperations.createCollection "c" { vector_size := 4, distance := "Dot" })
     true (by decide) (by decide),
   elapsed_time_window_placement.2.1 okSvc testCosts [] "foo" 0 ["a", "b"] (by decide),
   elapsed_time_window_placement.2.2 okSvc testCosts { metadata := [], message := {} } 0
     [{ alias_name := "a", collection_name := "c1" },
      { alias_name := "b", collection_name := "c2" }] (by decide)⟩
